import Mathlib

/-!
Verification of the Chonkie.Net model-conversion scripts.

The development shallowly embeds the two Python scripts
`scripts/convert_model.py` and `scripts/convert_neural_models.py`.
A directory is modelled as the list of file names present in it
(file contents play no role in any of the verified properties).
External effectful calls (loading a configuration, loading a model,
exporting with optimum, tracing with torch, saving a tokenizer,
writing JSON files) are modelled by an oracle record: each call either
succeeds, possibly reporting the set of files it wrote, or raises.
-/

namespace ChonkieConvert

/-- A directory state: the list of file names present. -/
abbrev Dir := List String

/-! ### convert_model.py: verification and tokenizer classification -/

/-- Essential files that must be present (convert_model.py line 107). -/
def essential_files : List String := ["model.onnx", "config.json", "tokenizer_config.json"]

/-- Tokenizer vocabulary files (convert_model.py lines 113-118). -/
def vocab_files : List String :=
  ["vocab.txt", "vocab.json", "sentencepiece.bpe.model", "tokenizer.model"]

/-- Additional tokenizer files, reported but never required
(convert_model.py line 144). -/
def additional_files : List String :=
  ["merges.txt", "tokenizer.json", "special_tokens_map.json", "added_tokens.json"]

/-- The loop of convert_model.py lines 124-131: every essential file exists. -/
def all_essential_present (d : Dir) : Bool := essential_files.all (fun f => d.contains f)

/-- The loop of convert_model.py lines 134-141: the vocabulary files found. -/
def found_vocab_files (d : Dir) : List String := vocab_files.filter (fun f => d.contains f)

/-- Set when at least one vocabulary file exists (convert_model.py line 141). -/
def vocab_file_present (d : Dir) : Bool := vocab_files.any (fun f => d.contains f)

/-- The verdict of convert_model.py line 162: success exactly when all
essential files are present and some vocabulary file is present. -/
def verify (d : Dir) : Bool := all_essential_present d && vocab_file_present d

/-- Tokenizer-type classification of convert_model.py lines 152-159,
a function of the vocabulary files found in the directory. -/
def tokenizer_type (d : Dir) : String :=
  let fv := found_vocab_files d
  if fv.contains "vocab.txt" then "BERT-style"
  else if fv.contains "vocab.json" then "RoBERTa/GPT-2-style"
  else if fv.contains "sentencepiece.bpe.model" || fv.contains "tokenizer.model" then
    "SentencePiece"
  else "Unknown"

/-! ### Character-level embeddings of the Python string operations

The scripts use `str.replace("/", "_")`, `str.split("/")[-1]` and
`str.endswith(name)`. The separator and pattern are single characters, so
these are embedded directly on the character list of the string. -/

/-- Python `s.replace("/", "_")` for the single-character pattern used by
convert_model.py line 52: every slash becomes an underscore. -/
def replaceSlash (s : String) : String :=
  String.mk (s.data.map (fun c => if c = '/' then '_' else c))

/-- Python `s.split("/")` on the character list: splitting an empty string
yields one empty segment, and every slash starts a new segment. -/
def pySplitSlash : List Char → List (List Char)
  | [] => [[]]
  | c :: cs =>
    match pySplitSlash cs with
    | [] => [[]]
    | seg :: rest => if c = '/' then [] :: seg :: rest else (c :: seg) :: rest

/-- Python `s.split("/")[-1]`, the last path segment
(convert_neural_models.py line 332). -/
def lastSegment (s : String) : String := String.mk ((pySplitSlash s.data).getLastD [])

/-- Python `s.endswith(p)` (convert_neural_models.py line 326). -/
def pyEndsWith (s p : String) : Bool := p.data.isSuffixOf s.data

/-- Output-directory resolution of convert_model.py lines 51-53: when no
explicit directory is given, replace every slash in the model name by an
underscore and place the result under ./models. -/
def resolve_output_convert_model (model_name : String) (output_dir : Option String) : String :=
  match output_dir with
  | some d => d
  | none => "./models/" ++ replaceSlash model_name

/-- C1: verify() passes iff the three essential files (model.onnx,
config.json, tokenizer_config.json) are all present and at least one of the
four vocabulary files (vocab.txt, vocab.json, sentencepiece.bpe.model,
tokenizer.model) is present; every other directory state fails. -/
theorem C1_verify_pass_iff (d : Dir) :
    verify d = true ↔
      (("model.onnx" ∈ d ∧ "config.json" ∈ d ∧ "tokenizer_config.json" ∈ d) ∧
       ("vocab.txt" ∈ d ∨ "vocab.json" ∈ d ∨ "sentencepiece.bpe.model" ∈ d ∨
        "tokenizer.model" ∈ d)) := by
  simp [verify, all_essential_present, vocab_file_present, essential_files, vocab_files,
    and_assoc]

/-- Witness for C1 at a concrete directory: the three essential files plus
vocab.json verify as pass. -/
theorem C1_verify_pass_iff_witness :
    verify ["model.onnx", "config.json", "tokenizer_config.json", "vocab.json"] = true :=
  (C1_verify_pass_iff ["model.onnx", "config.json", "tokenizer_config.json",
    "vocab.json"]).mpr ⟨⟨by decide, by decide, by decide⟩, Or.inr (Or.inl (by decide))⟩

/-- Classification as a function of the four vocabulary-file presence bits,
used to factor the proofs about tokenizer_type. -/
def classifyBits (b1 b2 b3 b4 : Bool) : String :=
  if b1 then "BERT-style"
  else if b2 then "RoBERTa/GPT-2-style"
  else if b3 || b4 then "SentencePiece"
  else "Unknown"

theorem tokenizer_type_eq_classifyBits (d : Dir) :
    tokenizer_type d =
      classifyBits (d.contains "vocab.txt") (d.contains "vocab.json")
        (d.contains "sentencepiece.bpe.model") (d.contains "tokenizer.model") := by
  by_cases h1 : "vocab.txt" ∈ d <;> by_cases h2 : "vocab.json" ∈ d <;>
    by_cases h3 : "sentencepiece.bpe.model" ∈ d <;> by_cases h4 : "tokenizer.model" ∈ d <;>
    simp [tokenizer_type, found_vocab_files, vocab_files, classifyBits, List.filter,
      h1, h2, h3, h4]

/-- C6: the tokenizer-family classification depends only on which of the four
vocabulary filenames are present (no file contents appear in the model, and
the presence of all other files is irrelevant), and is decided by priority:
vocab.txt gives BERT-style, else vocab.json gives RoBERTa/GPT-2-style, else
sentencepiece.bpe.model or tokenizer.model gives SentencePiece, else
Unknown. -/
theorem C6_tokenizer_family (d d1 d2 : Dir) :
    ((∀ v ∈ vocab_files, d1.contains v = d2.contains v) →
      tokenizer_type d1 = tokenizer_type d2) ∧
    ("vocab.txt" ∈ d → tokenizer_type d = "BERT-style") ∧
    ("vocab.txt" ∉ d → "vocab.json" ∈ d → tokenizer_type d = "RoBERTa/GPT-2-style") ∧
    ("vocab.txt" ∉ d → "vocab.json" ∉ d →
      ("sentencepiece.bpe.model" ∈ d ∨ "tokenizer.model" ∈ d) →
      tokenizer_type d = "SentencePiece") ∧
    ("vocab.txt" ∉ d → "vocab.json" ∉ d → "sentencepiece.bpe.model" ∉ d →
      "tokenizer.model" ∉ d → tokenizer_type d = "Unknown") := by
  refine ⟨fun h => ?_, fun h => ?_, fun h1 h2 => ?_, fun h1 h2 h3 => ?_,
    fun h1 h2 h3 h4 => ?_⟩
  · rw [tokenizer_type_eq_classifyBits, tokenizer_type_eq_classifyBits,
      h "vocab.txt" (by simp [vocab_files]), h "vocab.json" (by simp [vocab_files]),
      h "sentencepiece.bpe.model" (by simp [vocab_files]),
      h "tokenizer.model" (by simp [vocab_files])]
  all_goals
    rw [tokenizer_type_eq_classifyBits]
    simp_all [classifyBits]

/-- Witness for C6 at a concrete directory: a directory holding only
vocab.json among the vocabulary files is classified RoBERTa/GPT-2-style,
and the classification agrees with any directory presenting the same four
vocabulary bits. -/
theorem C6_tokenizer_family_witness :
    tokenizer_type ["vocab.json", "merges.txt"] = tokenizer_type ["vocab.json"] ∧
    tokenizer_type ["vocab.json", "merges.txt"] = "RoBERTa/GPT-2-style" := by
  have h := C6_tokenizer_family ["vocab.json", "merges.txt"] ["vocab.json", "merges.txt"]
    ["vocab.json"]
  exact ⟨h.1 (by decide), h.2.2.1 (by decide) (by decide)⟩

/-- C4: with no explicit output, the identifier
sentence-transformers/all-MiniLM-L6-v2 resolves to
./models/sentence-transformers_all-MiniLM-L6-v2, and a directory holding
vocab.txt alongside the three required files verifies as pass with the
BERT-style (BertStyle) tokenizer family. -/
theorem C4_minilm_scenario :
    resolve_output_convert_model "sentence-transformers/all-MiniLM-L6-v2" none =
      "./models/sentence-transformers_all-MiniLM-L6-v2" ∧
    verify ["model.onnx", "config.json", "tokenizer_config.json", "vocab.txt"] = true ∧
    tokenizer_type ["model.onnx", "config.json", "tokenizer_config.json", "vocab.txt"] =
      "BERT-style" := by
  exact ⟨by decide, by decide, by decide⟩

/-! ### convert_neural_models.py: registries and output resolution -/

/-- Default Chonky models (convert_neural_models.py lines 41-45), as the
ordered association list short name → canonical identifier. -/
def DEFAULT_MODELS : List (String × String) :=
  [("distilbert", "mirth/chonky_distilbert_base_uncased_1"),
   ("modernbert-base", "mirth/chonky_modernbert_base_1"),
   ("modernbert-large", "mirth/chonky_modernbert_large_1")]

/-- Model strides for sliding-window processing
(convert_neural_models.py lines 48-52). -/
def MODEL_STRIDES : List (String × Nat) :=
  [("mirth/chonky_distilbert_base_uncased_1", 256),
   ("mirth/chonky_modernbert_base_1", 512),
   ("mirth/chonky_modernbert_large_1", 512)]

/-- Python `MODEL_STRIDES.get(model_name, 256)`
(convert_neural_models.py line 147). -/
def strideFor (model_name : String) : Nat :=
  (MODEL_STRIDES.lookup model_name).getD 256

/-- Python truthiness of the optional --output argument: None and the empty
string are falsy (convert_neural_models.py line 323, `if not output_dir`). -/
def truthyOutput : Option String → Bool
  | none => false
  | some s => !(s == "")

/-- The registry scan of convert_neural_models.py lines 325-328: the first
entry whose canonical identifier equals the model name or whose short name
is a suffix of the model name. -/
def findDefaultMatch (model_name : String) : Option (String × String) :=
  DEFAULT_MODELS.find? (fun p => p.2 == model_name || pyEndsWith model_name p.1)

/-- Auto-detection of the output directory
(convert_neural_models.py lines 323-333). -/
def autoDetectOutput (model_name : String) : String :=
  match findDefaultMatch model_name with
  | some p => "./models/" ++ p.1
  | none => "./models/" ++ lastSegment model_name

/-- Output resolution of convert_neural_models.py main, lines 319-333:
a truthy --output is used verbatim, anything else is auto-detected. -/
def resolve_output_main (model_name : String) (output : Option String) : String :=
  if truthyOutput output then output.getD "" else autoDetectOutput model_name

/-- C7: the stride lookup returns the registered stride for every canonical
identifier in the stride table, and 256 for every identifier with no entry;
in particular the registry short name distilbert, which is not a canonical
identifier, gets 256. -/
theorem C7_stride_lookup :
    (∀ id s, (id, s) ∈ MODEL_STRIDES → strideFor id = s) ∧
    (∀ id, id ∉ MODEL_STRIDES.map Prod.fst → strideFor id = 256) ∧
    strideFor "distilbert" = 256 := by
  refine ⟨fun id s h => ?_, fun id h => ?_, by decide⟩
  · simp only [ MODEL_STRIDES, List.mem_cons, List.not_mem_nil, or_false,
      Prod.mk.injEq] at h
    rcases h with ⟨rfl, rfl⟩ | ⟨rfl, rfl⟩ | ⟨rfl, rfl⟩ <;> decide
  · simp only [ MODEL_STRIDES, List.map_cons, List.map_nil, List.mem_cons,
      List.not_mem_nil, or_false, not_or] at h
    have e1 : (id == "mirth/chonky_distilbert_base_uncased_1") = false :=
      beq_eq_false_iff_ne.mpr h.1
    have e2 : (id == "mirth/chonky_modernbert_base_1") = false :=
      beq_eq_false_iff_ne.mpr h.2.1
    have e3 : (id == "mirth/chonky_modernbert_large_1") = false :=
      beq_eq_false_iff_ne.mpr h.2.2
    simp [strideFor, MODEL_STRIDES, List.lookup, e1, e2, e3]

/-- Witness for C7 at concrete identifiers: the table entry for
mirth/chonky_modernbert_base_1 yields 512, and an identifier outside the
table yields 256. -/
theorem C7_stride_lookup_witness :
    strideFor "mirth/chonky_modernbert_base_1" = 512 ∧ strideFor "bert-base-uncased" = 256 :=
  ⟨C7_stride_lookup.1 "mirth/chonky_modernbert_base_1" 512 (by decide),
   C7_stride_lookup.2.1 "bert-base-uncased" (by decide)⟩

/-- C5 counterexample: the explicit output is NOT always used verbatim.
Python tests the option with `if not output_dir`, so an explicit empty
string is falsy and triggers auto-detection: for model foo with explicit
output given as the empty string, resolution yields ./models/foo, not the
given value verbatim. -/
theorem C5_counterexample :
    resolve_output_main "foo" (some "") = "./models/foo" ∧
    resolve_output_main "foo" (some "") ≠ "" := by
  decide

/-- C5 amended: resolution returns the explicit output verbatim when it is
given and nonempty; otherwise (no explicit output, or the empty string)
./models/<short_name> when the canonical identifier of some registry entry
equals the model identifier or the short name of that entry is a suffix of the
model identifier, and ./models/<last path segment of the model identifier>
when no entry matches. -/
theorem C5_output_resolution (mn : String) (o : Option String) :
    (∀ s, o = some s → s ≠ "" → resolve_output_main mn o = s) ∧
    (truthyOutput o = false →
      (∃ p ∈ DEFAULT_MODELS, (p.2 = mn ∨ pyEndsWith mn p.1 = true) ∧
        resolve_output_main mn o = "./models/" ++ p.1) ∨
      ((∀ p ∈ DEFAULT_MODELS, p.2 ≠ mn ∧ pyEndsWith mn p.1 = false) ∧
        resolve_output_main mn o = "./models/" ++ lastSegment mn)) := by
  constructor
  · rintro s rfl hs
    simp [resolve_output_main, truthyOutput, hs]
  · intro h
    have hres : resolve_output_main mn o = autoDetectOutput mn := by
      simp [resolve_output_main, h]
    rcases hf : findDefaultMatch mn with _ | p
    · right
      refine ⟨fun p hp => ?_, by simp [hres, autoDetectOutput, hf]⟩
      have hnone := List.find?_eq_none.mp hf p hp
      simp only [Bool.or_eq_true, beq_iff_eq, not_or] at hnone
      exact ⟨fun e => hnone.1 e, by simpa using hnone.2⟩
    · left
      have hpmem := List.mem_of_find?_eq_some hf
      have hpred := List.find?_some hf
      simp only [Bool.or_eq_true, beq_iff_eq] at hpred
      exact ⟨p, hpmem, hpred, by simp [hres, autoDetectOutput, hf]⟩

/-- Witness for C5 at concrete inputs: a nonempty explicit output is used
verbatim, and with no explicit output the canonical identifier
mirth/chonky_distilbert_base_uncased_1 resolves through the registry. -/
theorem C5_output_resolution_witness :
    resolve_output_main "mirth/chonky_distilbert_base_uncased_1" (some "out") = "out" :=
  (C5_output_resolution "mirth/chonky_distilbert_base_uncased_1" (some "out")).1 "out" rfl
    (by decide)

/-! ### convert_neural_models.py: the conversion pipeline

convert_model_to_onnx (lines 55-188) runs five numbered steps: load the
configuration, load model and tokenizer, export to ONNX (optimum with a
manual fallback), save the tokenizer, save config.json and metadata.json.
Each external call is modelled by an oracle field: `Except.ok` for a
successful call (carrying the files it writes, when it writes any) and
`Except.error` for a raised exception. The pipeline starts from a freshly
created output directory, so the files of a run are exactly the files its
successful calls wrote. -/

/-- The pipeline stages named by the specification. -/
inductive Stage where
  | Config
  | ModelLoad
  | Export
  | TokenizerSave
  | MetadataSave
  | Verify
deriving DecidableEq, Repr

/-- The fields of a loaded model configuration that the pipeline reads. -/
structure ModelConfig where
  model_type : String
  hidden_size : Nat
  num_labels : Nat
  max_position_embeddings : Nat
deriving DecidableEq, Repr

/-- Outcomes of the external calls made during one pipeline run. -/
structure Oracle where
  /-- AutoConfig.from_pretrained (line 85). -/
  configLoad : Except String ModelConfig
  /-- AutoModelForTokenClassification / AutoTokenizer .from_pretrained
  (lines 97-98). -/
  modelLoad : Except String Unit
  /-- Whether ORTModelForTokenClassification imported (lines 26-29). -/
  optimumAvailable : Bool
  /-- ORTModelForTokenClassification.from_pretrained + save_pretrained
  (lines 108-112), with the files the save writes. -/
  optimumExport : Except String (List String)
  /-- torch.onnx.export inside _export_onnx_manual (lines 205-219). -/
  manualExport : Except String Unit
  /-- tokenizer.save_pretrained (line 125), with the files it writes. -/
  tokenizerSave : Except String (List String)
  /-- The config.json dump (lines 135-137). -/
  configJsonWrite : Except String Unit
  /-- The metadata.json dump (lines 152-154). -/
  metadataJsonWrite : Except String Unit
deriving Repr

/-- The metadata object of convert_neural_models.py lines 140-150. -/
structure Metadata where
  model_name : String
  model_type : String
  task : String
  max_position_embeddings : Nat
  hidden_size : Nat
  num_labels : Nat
  stride : Nat
  framework : String
  onnx_converted : Bool
deriving DecidableEq, Repr

/-- The observable outcome of one pipeline run: the returned boolean, the
stage of the first failure (if any), the error detail the failure site logs
(if any), the files written into the output directory, the stages attempted
in order, how often the manual export path ran, and the metadata object
written (if any). -/
structure RunResult where
  success : Bool
  failedStage : Option Stage
  errorDetail : Option String
  files : List String
  trace : List Stage
  manualAttempts : Nat
  metadataWritten : Option Metadata
deriving DecidableEq, Repr

/-- Python _export_onnx_manual (lines 191-226): traces the model and writes
model.onnx, or catches the exception and returns failure having written
nothing. -/
def export_onnx_manual (o : Oracle) : Bool × List String :=
  match o.manualExport with
  | .ok _ => (true, ["model.onnx"])
  | .error _ => (false, [])

/-- The exception message the manual export path logs when
torch.onnx.export raises (line 225), if it raises. -/
def manualExportError (o : Oracle) : Option String :=
  match o.manualExport with
  | .ok _ => none
  | .error e => some e

/-- Step 3 of the pipeline (lines 104-120): optimum export when selected
and available, falling back to the manual path when optimum raises;
otherwise the manual path directly. Returns success, files written, the
number of manual-export attempts, and the logged error detail of the
failing call (export failure always comes from the manual path, since an
optimum exception only triggers the fallback). -/
def exportStage (use_optimum : Bool) (o : Oracle) :
    Bool × List String × Nat × Option String :=
  if use_optimum && o.optimumAvailable then
    match o.optimumExport with
    | .ok written => (true, written, 0, none)
    | .error _ =>
      match export_onnx_manual o with
      | (ok, written) => (ok, written, 1, manualExportError o)
  else
    match export_onnx_manual o with
    | (ok, written) => (ok, written, 1, manualExportError o)

/-- The metadata object built at lines 140-150: the export-succeeded flag
is the literal True and the stride comes from the stride table with
default 256. -/
def mkMetadata (model_name : String) (c : ModelConfig) : Metadata :=
  { model_name := model_name
    model_type := c.model_type
    task := "token-classification"
    max_position_embeddings := c.max_position_embeddings
    hidden_size := c.hidden_size
    num_labels := c.num_labels
    stride := strideFor model_name
    framework := "pt"
    onnx_converted := true }

/-- convert_model_to_onnx (lines 55-188): the five steps in order, each run
only if every prior step succeeded, returning False at the first failure
and True when all steps succeed. There is no verification step. -/
def convert_model_to_onnx (model_name : String) (use_optimum : Bool) (o : Oracle) :
    RunResult :=
  match o.configLoad with
  | .error e =>
    { success := false, failedStage := some .Config, errorDetail := some e,
      files := [], trace := [.Config], manualAttempts := 0, metadataWritten := none }
  | .ok c =>
    match o.modelLoad with
    | .error e =>
      { success := false, failedStage := some .ModelLoad, errorDetail := some e,
        files := [], trace := [.Config, .ModelLoad], manualAttempts := 0,
        metadataWritten := none }
    | .ok _ =>
      match exportStage use_optimum o with
      | (false, written, attempts, err) =>
        { success := false, failedStage := some .Export, errorDetail := err,
          files := written, trace := [.Config, .ModelLoad, .Export],
          manualAttempts := attempts, metadataWritten := none }
      | (true, written, attempts, _) =>
        match o.tokenizerSave with
        | .error e =>
          { success := false, failedStage := some .TokenizerSave, errorDetail := some e,
            files := written, trace := [.Config, .ModelLoad, .Export, .TokenizerSave],
            manualAttempts := attempts, metadataWritten := none }
        | .ok tokFiles =>
          match o.configJsonWrite with
          | .error e =>
            { success := false, failedStage := some .MetadataSave, errorDetail := some e,
              files := written ++ tokFiles,
              trace := [.Config, .ModelLoad, .Export, .TokenizerSave, .MetadataSave],
              manualAttempts := attempts, metadataWritten := none }
          | .ok _ =>
            match o.metadataJsonWrite with
            | .error e =>
              { success := false, failedStage := some .MetadataSave,
                errorDetail := some e,
                files := written ++ tokFiles ++ ["config.json"],
                trace := [.Config, .ModelLoad, .Export, .TokenizerSave, .MetadataSave],
                manualAttempts := attempts, metadataWritten := none }
            | .ok _ =>
              { success := true, failedStage := none, errorDetail := none,
                files := written ++ tokFiles ++ ["config.json", "metadata.json"],
                trace := [.Config, .ModelLoad, .Export, .TokenizerSave, .MetadataSave],
                manualAttempts := attempts,
                metadataWritten := some (mkMetadata model_name c) }

/-- The five stages the pipeline can attempt, in their fixed order. -/
def fullStages : List Stage :=
  [.Config, .ModelLoad, .Export, .TokenizerSave, .MetadataSave]

/-- The stages attempted when stage s is the first to fail: every stage
before s, then s itself, each exactly once. -/
def stagesThrough : Stage → List Stage
  | .Config => [.Config]
  | .ModelLoad => [.Config, .ModelLoad]
  | .Export => [.Config, .ModelLoad, .Export]
  | .TokenizerSave => [.Config, .ModelLoad, .Export, .TokenizerSave]
  | .MetadataSave => [.Config, .ModelLoad, .Export, .TokenizerSave, .MetadataSave]
  | .Verify => [.Config, .ModelLoad, .Export, .TokenizerSave, .MetadataSave, .Verify]

/-- C2: in a run where optimum is selected and available but its export
raises, the manual export path runs exactly once; and when the manual path
also raises, the run fails at the Export stage with no graph file in the
output directory. -/
theorem C2_export_fallback (mn : String) (o : Oracle)
    (hc : ∃ c, o.configLoad = .ok c) (hm : o.modelLoad = .ok ())
    (hav : o.optimumAvailable = true) (hraise : ∃ e, o.optimumExport = .error e) :
    (convert_model_to_onnx mn true o).manualAttempts = 1 ∧
    (∀ e2, o.manualExport = .error e2 →
      (convert_model_to_onnx mn true o).success = false ∧
      (convert_model_to_onnx mn true o).failedStage = some Stage.Export ∧
      "model.onnx" ∉ (convert_model_to_onnx mn true o).files) := by
  obtain ⟨c, hc⟩ := hc
  obtain ⟨e, he⟩ := hraise
  rcases o with ⟨cl, ml, avail, oe, me, ts, cw, mw⟩
  simp only at hc hm hav he
  subst hc hm hav he
  cases me <;> cases ts <;> cases cw <;> cases mw <;>
    simp [convert_model_to_onnx, exportStage, export_onnx_manual]

/-- A run in which optimum export and manual export both raise: the oracle
for the C2 witness. -/
def bothExportsRaiseOracle : Oracle :=
  { configLoad := .ok ⟨"distilbert", 768, 2, 512⟩
    modelLoad := .ok ()
    optimumAvailable := true
    optimumExport := .error "optimum boom"
    manualExport := .error "manual boom"
    tokenizerSave := .ok ["tokenizer_config.json", "vocab.txt"]
    configJsonWrite := .ok ()
    metadataJsonWrite := .ok () }

/-- Witness for C2: with both export paths raising, the concrete run makes
exactly one manual attempt, fails at the Export stage, and writes no
model.onnx. -/
theorem C2_export_fallback_witness :
    (convert_model_to_onnx "m" true bothExportsRaiseOracle).manualAttempts = 1 ∧
    (convert_model_to_onnx "m" true bothExportsRaiseOracle).success = false ∧
    (convert_model_to_onnx "m" true bothExportsRaiseOracle).failedStage =
      some Stage.Export ∧
    "model.onnx" ∉ (convert_model_to_onnx "m" true bothExportsRaiseOracle).files := by
  have h := C2_export_fallback "m" bothExportsRaiseOracle
    ⟨⟨"distilbert", 768, 2, 512⟩, rfl⟩ rfl rfl ⟨"optimum boom", rfl⟩
  have h2 := h.2 "manual boom" rfl
  exact ⟨h.1, h2.1, h2.2.1, h2.2.2⟩

/-- An all-successful run whose tokenizer save writes no vocabulary file:
the artifact set fails verification, yet the pipeline reports success. -/
def unverifiedSuccessOracle : Oracle :=
  { configLoad := .ok ⟨"distilbert", 768, 2, 512⟩
    modelLoad := .ok ()
    optimumAvailable := true
    optimumExport := .ok ["model.onnx"]
    manualExport := .ok ()
    tokenizerSave := .ok ["tokenizer_config.json"]
    configJsonWrite := .ok ()
    metadataJsonWrite := .ok () }

/-- C3 counterexample: the pipeline of convert_neural_models.py has no
Verify stage. A concrete run in which every stage succeeds but the
resulting artifact set is incomplete (no vocabulary file) terminates in
success rather than in the terminal failure the claim requires, and Verify
appears nowhere in the attempted stages. -/
theorem C3_counterexample :
    (convert_model_to_onnx "mirth/chonky_distilbert_base_uncased_1" true
      unverifiedSuccessOracle).success = true ∧
    verify (convert_model_to_onnx "mirth/chonky_distilbert_base_uncased_1" true
      unverifiedSuccessOracle).files = false ∧
    Stage.Verify ∉ (convert_model_to_onnx "mirth/chonky_distilbert_base_uncased_1" true
      unverifiedSuccessOracle).trace := by
  decide

set_option maxHeartbeats 1600000 in
/-- C3 amended: the stages Config, ModelLoad, Export, TokenizerSave,
MetadataSave execute in that fixed order, each stage runs only if every
prior stage succeeded, and the first stage failure terminates the run as a
failure carrying that stage identifier and the logged error detail, with no
stage retried; but the pipeline has no Verify stage, so no run attempts
verification (a directory failing verification is checked only by the
separate convert_model script). -/
theorem C3_stage_order (mn : String) (use_optimum : Bool) (o : Oracle) :
    ((convert_model_to_onnx mn use_optimum o).success = true ↔
      ((convert_model_to_onnx mn use_optimum o).failedStage = none ∧
       (convert_model_to_onnx mn use_optimum o).errorDetail = none ∧
       (convert_model_to_onnx mn use_optimum o).trace = fullStages)) ∧
    ((convert_model_to_onnx mn use_optimum o).success = false ↔
      (∃ s e, (convert_model_to_onnx mn use_optimum o).failedStage = some s ∧
        (convert_model_to_onnx mn use_optimum o).errorDetail = some e ∧
        (convert_model_to_onnx mn use_optimum o).trace = stagesThrough s)) ∧
    (convert_model_to_onnx mn use_optimum o).trace.Nodup ∧
    Stage.Verify ∉ (convert_model_to_onnx mn use_optimum o).trace := by
  rcases o with ⟨cl, ml, avail, oe, me, ts, cw, mw⟩
  cases cl <;> cases ml <;> cases use_optimum <;> cases avail <;> cases oe <;>
    cases me <;> cases ts <;> cases cw <;> cases mw <;>
    simp [convert_model_to_onnx, exportStage, export_onnx_manual, manualExportError,
      fullStages, stagesThrough]

/-- Witness for C3 at a concrete run: applying the stage-order theorem to a
run that fails at the Export stage with its logged error detail. -/
theorem C3_stage_order_witness :
    ((convert_model_to_onnx "m" true bothExportsRaiseOracle).success = true ↔
      ((convert_model_to_onnx "m" true bothExportsRaiseOracle).failedStage = none ∧
       (convert_model_to_onnx "m" true bothExportsRaiseOracle).errorDetail = none ∧
       (convert_model_to_onnx "m" true bothExportsRaiseOracle).trace = fullStages)) ∧
    ((convert_model_to_onnx "m" true bothExportsRaiseOracle).success = false ↔
      (∃ s e, (convert_model_to_onnx "m" true bothExportsRaiseOracle).failedStage =
          some s ∧
        (convert_model_to_onnx "m" true bothExportsRaiseOracle).errorDetail = some e ∧
        (convert_model_to_onnx "m" true bothExportsRaiseOracle).trace =
          stagesThrough s)) ∧
    (convert_model_to_onnx "m" true bothExportsRaiseOracle).trace.Nodup ∧
    Stage.Verify ∉ (convert_model_to_onnx "m" true bothExportsRaiseOracle).trace :=
  C3_stage_order "m" true bothExportsRaiseOracle

set_option maxHeartbeats 1600000 in
/-- C10: whenever the pipeline writes the metadata object, the
export-succeeded flag it contains is the constant True, metadata.json is
among the written files, and the Export stage has already succeeded (it was
attempted and is not the failed stage), so no written metadata can record a
failed export. -/
theorem C10_metadata_after_export (mn : String) (use_optimum : Bool) (o : Oracle) :
    ∀ m, (convert_model_to_onnx mn use_optimum o).metadataWritten = some m →
      m.onnx_converted = true ∧
      "metadata.json" ∈ (convert_model_to_onnx mn use_optimum o).files ∧
      Stage.Export ∈ (convert_model_to_onnx mn use_optimum o).trace ∧
      (convert_model_to_onnx mn use_optimum o).failedStage ≠ some Stage.Export := by
  rcases o with ⟨cl, ml, avail, oe, me, ts, cw, mw⟩
  cases cl <;> cases ml <;> cases use_optimum <;> cases avail <;> cases oe <;>
    cases me <;> cases ts <;> cases cw <;> cases mw <;>
    simp [convert_model_to_onnx, exportStage, export_onnx_manual, mkMetadata,
      fullStages, stagesThrough]

/-- Witness for C10 at a concrete run: the all-successful run writes a
metadata object whose export flag is True. -/
theorem C10_metadata_after_export_witness :
    (mkMetadata "mirth/chonky_distilbert_base_uncased_1"
      ⟨"distilbert", 768, 2, 512⟩).onnx_converted = true ∧
    "metadata.json" ∈ (convert_model_to_onnx "mirth/chonky_distilbert_base_uncased_1" true
      unverifiedSuccessOracle).files := by
  have h := C10_metadata_after_export "mirth/chonky_distilbert_base_uncased_1" true
    unverifiedSuccessOracle
    (mkMetadata "mirth/chonky_distilbert_base_uncased_1" ⟨"distilbert", 768, 2, 512⟩) rfl
  exact ⟨h.1, h.2.1⟩

/-! ### The manual export call (convert_neural_models.py lines 191-226) -/

/-- A synthetic input tensor: shape, element type, and constant fill. -/
structure TensorSpec where
  shape : List Nat
  dtype : String
  fill : Nat
deriving DecidableEq, Repr

/-- The arguments of the torch.onnx.export call. -/
structure OnnxExportCall where
  inputTensors : List (String × TensorSpec)
  output_names : List String
  dynamic_axes : List (String × List (Nat × String))
  opset_version : Nat
  do_constant_folding : Bool
  target_file : String
deriving DecidableEq, Repr

/-- The torch.onnx.export call of _export_onnx_manual, lines 198-219: the
dummy inputs torch.ones(1, 512, long), torch.ones(1, 512, long) and
torch.zeros(1, 512, long) paired with the input names, the logits output,
the dynamic-axes dictionary, opset 14, constant folding on, and the target
file model.onnx. -/
def manualExportCall : OnnxExportCall :=
  { inputTensors :=
      [("input_ids", ⟨[1, 512], "long", 1⟩),
       ("attention_mask", ⟨[1, 512], "long", 1⟩),
       ("token_type_ids", ⟨[1, 512], "long", 0⟩)]
    output_names := ["logits"]
    dynamic_axes :=
      [("input_ids", [(0, "batch_size"), (1, "sequence_length")]),
       ("attention_mask", [(0, "batch_size"), (1, "sequence_length")]),
       ("token_type_ids", [(0, "batch_size"), (1, "sequence_length")]),
       ("logits", [(0, "batch_size"), (1, "sequence_length")])]
    opset_version := 14
    do_constant_folding := true
    target_file := "model.onnx" }

/-- C8: the manual export traces the model against exactly three integer
(long) input tensors of fixed shape 1 by 512 named input_ids,
attention_mask and token_type_ids, writes the single graph file model.onnx
into the output directory, declares axes 0 and 1 of every input and of the
logits output dynamic, uses opset version 14, and enables constant
folding. -/
theorem C8_manual_export :
    manualExportCall.inputTensors.length = 3 ∧
    manualExportCall.inputTensors.map Prod.fst =
      ["input_ids", "attention_mask", "token_type_ids"] ∧
    (∀ p ∈ manualExportCall.inputTensors, p.2.shape = [1, 512] ∧ p.2.dtype = "long") ∧
    manualExportCall.output_names = ["logits"] ∧
    (∀ n ∈ manualExportCall.inputTensors.map Prod.fst ++ manualExportCall.output_names,
      ∃ axes, (n, axes) ∈ manualExportCall.dynamic_axes ∧
        (0, "batch_size") ∈ axes ∧ (1, "sequence_length") ∈ axes) ∧
    manualExportCall.opset_version = 14 ∧
    manualExportCall.do_constant_folding = true ∧
    manualExportCall.target_file = "model.onnx" ∧
    (∀ o : Oracle, o.manualExport = .ok () →
      export_onnx_manual o = (true, ["model.onnx"])) := by
  refine ⟨by decide, by decide, by decide, by decide, fun n hn => ?_, by decide,
    by decide, by decide, fun o h => by simp [export_onnx_manual, h]⟩
  simp only [manualExportCall, List.map_cons, List.map_nil, List.cons_append,
    List.nil_append, List.mem_cons, List.not_mem_nil, or_false] at hn
  rcases hn with rfl | rfl | rfl | rfl <;>
    exact ⟨[(0, "batch_size"), (1, "sequence_length")], by decide, by decide, by decide⟩

/-- Witness for C8 at concrete inputs: the successful manual export of a
concrete run writes exactly model.onnx, and the logits output has its
first two axes declared dynamic. -/
theorem C8_manual_export_witness :
    export_onnx_manual unverifiedSuccessOracle = (true, ["model.onnx"]) ∧
    ∃ axes, ("logits", axes) ∈ manualExportCall.dynamic_axes ∧
      (0, "batch_size") ∈ axes ∧ (1, "sequence_length") ∈ axes :=
  ⟨C8_manual_export.2.2.2.2.2.2.2.2 unverifiedSuccessOracle rfl,
   C8_manual_export.2.2.2.2.1 "logits" (by decide)⟩

/-! ### Batch conversion (convert_neural_models.py lines 229-253) -/

/-- The logged outcome of one entry of the batch loop: the pipeline result
when convert_model_to_onnx returns, or a logged error when the call
raises (lines 252-253). -/
inductive BatchOutcome where
  | completed : RunResult → BatchOutcome
  | errorLogged : String → BatchOutcome
deriving DecidableEq, Repr

/-- One iteration of the batch loop (lines 243-253): the call is wrapped in
try/except keyed by the model identifier; an exception is logged and the
loop continues. The per-run external world is given by `raising` (the
exception a run raises outside the pipeline, if any) and `oracles` (the
pipeline oracle of each model identifier). -/
def runDefaultEntry (raising : String → Option String) (oracles : String → Oracle)
    (model_id : String) : BatchOutcome :=
  match raising model_id with
  | some e => .errorLogged e
  | none => .completed (convert_model_to_onnx model_id true (oracles model_id))

/-- convert_all_defaults (lines 229-253): one sequential run per registry
entry, each into its own output directory models/<name>, with use_optimum
true and quantize false. -/
def convert_all_defaults (raising : String → Option String) (oracles : String → Oracle) :
    List (String × String × BatchOutcome) :=
  DEFAULT_MODELS.map (fun p => (p.1, "models/" ++ p.1, runDefaultEntry raising oracles p.2))

/-- C9: batch conversion always performs one run per registry entry, in the
registry order, regardless of failures (an entry that fails or raises
occupies only its own slot and the loop continues); and the outcome of each
entry is a function of the external world of that entry alone, so a
failure configured for run i cannot alter the input (identifier and output
directory) or output of any run j with a different identifier. -/
theorem C9_batch_runs (raising : String → Option String) (oracles : String → Oracle) :
    convert_all_defaults raising oracles =
      [("distilbert", "models/distilbert",
        runDefaultEntry raising oracles "mirth/chonky_distilbert_base_uncased_1"),
       ("modernbert-base", "models/modernbert-base",
        runDefaultEntry raising oracles "mirth/chonky_modernbert_base_1"),
       ("modernbert-large", "models/modernbert-large",
        runDefaultEntry raising oracles "mirth/chonky_modernbert_large_1")] ∧
    (convert_all_defaults raising oracles).length = DEFAULT_MODELS.length ∧
    (∀ raising2 oracles2 id, raising id = raising2 id → oracles id = oracles2 id →
      runDefaultEntry raising oracles id = runDefaultEntry raising2 oracles2 id) := by
  refine ⟨rfl, rfl, fun raising2 oracles2 id h1 h2 => ?_⟩
  simp [runDefaultEntry, h1, h2]

/-- Witness for C9 at a concrete world: with the first run raising and the
others not, the batch still has three entries in registry order, and a
outcome of a non-raising entry is unchanged when the world of the first run
changes. -/
theorem C9_batch_runs_witness :
    convert_all_defaults
        (fun id => if id = "mirth/chonky_distilbert_base_uncased_1" then some "boom"
          else none)
        (fun _ => unverifiedSuccessOracle) =
      [("distilbert", "models/distilbert",
        runDefaultEntry
          (fun id => if id = "mirth/chonky_distilbert_base_uncased_1" then some "boom"
            else none)
          (fun _ => unverifiedSuccessOracle) "mirth/chonky_distilbert_base_uncased_1"),
       ("modernbert-base", "models/modernbert-base",
        runDefaultEntry
          (fun id => if id = "mirth/chonky_distilbert_base_uncased_1" then some "boom"
            else none)
          (fun _ => unverifiedSuccessOracle) "mirth/chonky_modernbert_base_1"),
       ("modernbert-large", "models/modernbert-large",
        runDefaultEntry
          (fun id => if id = "mirth/chonky_distilbert_base_uncased_1" then some "boom"
            else none)
          (fun _ => unverifiedSuccessOracle) "mirth/chonky_modernbert_large_1")] :=
  (C9_batch_runs
    (fun id => if id = "mirth/chonky_distilbert_base_uncased_1" then some "boom" else none)
    (fun _ => unverifiedSuccessOracle)).1

end ChonkieConvert
